import Mathlib

/-!
Verification development for the Measurement Management API backend
(`main.py`, `schemas.py`): a shallow embedding of the document store,
the Pydantic validation layer and the request handlers, with theorems
settling the specification claims about them.

The document store itself (`database.py`: `db`, `create_document`,
`get_documents`, the point lookups and the aggregation) is not part of
the provided sources; those pieces are modelled from the specification
and marked as such in their doc comments.  Everything else is a direct
translation of the Python code in `src/main.py` and `src/schemas.py`.
-/

namespace MeasurementApi

/-- A store value.  BSON ObjectId values are kept distinct from plain
strings because `serialize_doc` converts exactly the ObjectId values to
strings.  Python `None` is `null`.  Floating point measurement values
are modelled as rationals (only their sign and equality matter here). -/
inductive Value where
  | oid : String → Value
  | str : String → Value
  | int : Int → Value
  | num : Rat → Value
  | null : Value
deriving DecidableEq, Repr

/-- A document: an association list from field names to values, as a
Python dict with its insertion order. -/
abbrev Doc := List (String × Value)

/-- `bson.ObjectId.is_valid` on a string: exactly 24 hexadecimal
characters. -/
def isValidObjectId (s : String) : Bool :=
  s.length == 24 && s.toList.all fun c =>
    c.isDigit || (('a' ≤ c) && (c ≤ 'f')) || (('A' ≤ c) && (c ≤ 'F'))

/-- Conversion applied by `serialize_doc` to a single value: an
ObjectId becomes its hex string, everything else is unchanged. -/
def serializeValue : Value → Value
  | .oid s => .str s
  | v => v

/-- `serialize_doc` from `main.py`: an empty (falsy) document is
returned unchanged, otherwise every ObjectId value is replaced by its
string form and all other entries are copied. -/
def serialize_doc (doc : Doc) : Doc :=
  if doc.isEmpty then doc
  else doc.map fun kv => (kv.1, serializeValue kv.2)

/-- Python `None`/`str` option rendered as a store value. -/
def optStr : Option String → Value
  | none => .null
  | some s => .str s

/-- Optional numeric field rendered as a store value. -/
def optNum : Option Rat → Value
  | none => .null
  | some q => .num q

/-- The three collections of the store, plus the counter from which
store-generated identifiers are derived. -/
structure Store where
  project : List Doc
  building : List Doc
  element : List Doc
  nextId : Nat
deriving DecidableEq, Repr

/-- One hex digit (lower case), for store-generated identifiers. -/
def hexChar (n : Nat) : Char :=
  if n < 10 then Char.ofNat (48 + n) else Char.ofNat (87 + n)

/-- Modelled from the spec: identifiers are store-assigned 24-character
hex strings; the `n`-th generated identifier is `n` written as 24 hex
digits. -/
def natToHex24 (n : Nat) : String :=
  String.mk (((List.range 24).reverse).map fun i => hexChar (n / 16 ^ i % 16))

/-- Modelled from the spec: the store's point lookup by `_id`
(`find_one({"_id": ObjectId(id)})` in the handlers): the first document
of the collection whose `_id` field is the given ObjectId. -/
def findOne (docs : List Doc) (id : String) : Option Doc :=
  docs.find? fun d => decide (List.lookup "_id" d = some (Value.oid id))

/-- Modelled from the spec: `get_documents` of the missing database
module — a filtered lookup-by-equality-map passed through to the store
as an exact-match query, returning documents in store iteration order. -/
def get_documents (docs : List Doc) (query : Doc) : List Doc :=
  docs.filter fun d => query.all fun kv => decide (List.lookup kv.1 d = some kv.2)

/-- Modelled from the spec: `create_document` of the missing database
module — insert a validated record into a collection under a fresh
store-generated identifier and return that identifier together with the
grown collection. -/
def create_document (docs : List Doc) (nextId : Nat) (fields : Doc) : String × List Doc :=
  let oid := natToHex24 nextId
  (oid, docs ++ [("_id", Value.oid oid) :: fields])

/-- The error taxonomy of the handlers (section 7 of the spec), as the
`HTTPException`s raised in `main.py`. -/
inductive ApiError where
  | validation : List String → ApiError
  | invalidId : String → ApiError
  | parentNotFound : String → ApiError
  | notFound : ApiError
  | serverError : String → ApiError
deriving DecidableEq, Repr

/-- HTTP status code of each error, as raised in `main.py` (Pydantic
request validation failures surface as 422 in FastAPI). -/
def statusCode : ApiError → Nat
  | .validation _ => 422
  | .invalidId _ => 400
  | .parentNotFound _ => 404
  | .notFound => 404
  | .serverError _ => 500

/-- Store accesses a handler performs, in order: this is the trace used
to state "no store access" and check-ordering claims. -/
inductive StoreAccess where
  | findProject : String → StoreAccess
  | findBuilding : String → StoreAccess
  | findElement : String → StoreAccess
  | insertBuilding : Doc → StoreAccess
  | insertElement : Doc → StoreAccess
  | queryElements : Doc → StoreAccess
  | aggregateElements : String → StoreAccess
deriving DecidableEq, Repr

instance {ε α : Type} [DecidableEq ε] [DecidableEq α] : DecidableEq (Except ε α) := by
  intro a b
  cases a <;> cases b
  case error.error x y =>
    exact decidable_of_iff (x = y) ⟨fun h => by rw [h], fun h => by cases h; rfl⟩
  case error.ok x y => exact isFalse fun h => Except.noConfusion h
  case ok.error x y => exact isFalse fun h => Except.noConfusion h
  case ok.ok x y =>
    exact decidable_of_iff (x = y) ⟨fun h => by rw [h], fun h => by cases h; rfl⟩

/-- Outcome of one request: the response (or error), the store after
the request, and the ordered trace of store accesses made. -/
structure HandlerResult (α : Type) where
  result : Except ApiError α
  store : Store
  accesses : List StoreAccess
deriving Repr, DecidableEq

/-! ## Schemas (`schemas.py`) -/

/-- `Building` from `schemas.py`: required parent project id, required
name, optional description. -/
structure Building where
  project_id : String
  name : String
  description : Option String
deriving DecidableEq, Repr

/-- The closed `element_type` enumeration. -/
inductive ElementType where
  | porte | placard | dressing
deriving DecidableEq, Repr

/-- The closed `opening` enumeration. -/
inductive Opening where
  | poussant | tirant
deriving DecidableEq, Repr

def ElementType.toName : ElementType → String
  | .porte => "porte"
  | .placard => "placard"
  | .dressing => "dressing"

def Opening.toName : Opening → String
  | .poussant => "poussant"
  | .tirant => "tirant"

/-- Parse a raw `element_type` string against the closed enumeration. -/
def parseElementType (s : String) : Option ElementType :=
  if s = "porte" then some .porte
  else if s = "placard" then some .placard
  else if s = "dressing" then some .dressing
  else none

/-- Parse a raw `opening` string against the closed enumeration. -/
def parseOpening (s : String) : Option Opening :=
  if s = "poussant" then some .poussant
  else if s = "tirant" then some .tirant
  else none

/-- `Element` from `schemas.py` after validation: enums are typed,
`quantity` has received its default. -/
structure Element where
  project_id : String
  building_id : Option String
  element_type : ElementType
  configuration : Option String
  opening : Option Opening
  height_mm : Option Rat
  width_mm : Option Rat
  depth_mm : Option Rat
  thickness_mm : Option Rat
  quantity : Int
  notes_text : Option String
  notes_audio_url : Option String
  photo_url : Option String
deriving DecidableEq, Repr

/-- A raw Element-creation payload before validation: enum fields are
still strings, `quantity := none` means the field was omitted. -/
structure ElementRaw where
  project_id : String
  building_id : Option String
  element_type : String
  configuration : Option String
  opening : Option String
  height_mm : Option Rat
  width_mm : Option Rat
  depth_mm : Option Rat
  thickness_mm : Option Rat
  quantity : Option Int
  notes_text : Option String
  notes_audio_url : Option String
  photo_url : Option String
deriving DecidableEq, Repr

/-- An optional numeric field violates its `ge=0` bound. -/
def negQ : Option Rat → Bool
  | some q => decide (q < 0)
  | none => false

/-- The fields of a raw Element payload that fail Pydantic validation:
enum fields outside the closed set, negative `*_mm` values, and a
supplied `quantity` below 1. -/
def elementErrors (r : ElementRaw) : List String :=
  (if (parseElementType r.element_type).isNone then ["element_type"] else []) ++
  (match r.opening with
   | some s => if (parseOpening s).isNone then ["opening"] else []
   | none => []) ++
  (if negQ r.height_mm then ["height_mm"] else []) ++
  (if negQ r.width_mm then ["width_mm"] else []) ++
  (if negQ r.depth_mm then ["depth_mm"] else []) ++
  (if negQ r.thickness_mm then ["thickness_mm"] else []) ++
  (match r.quantity with
   | some q => if q < 1 then ["quantity"] else []
   | none => [])

/-- Pydantic validation of the `Element` model: fail with the offending
field names, or produce the typed record, defaulting `quantity` to 1
when it was omitted. -/
def validate_element (r : ElementRaw) : Except (List String) Element :=
  if elementErrors r ≠ [] then .error (elementErrors r)
  else
    match parseElementType r.element_type with
    | some et =>
        .ok { project_id := r.project_id
              building_id := r.building_id
              element_type := et
              configuration := r.configuration
              opening := r.opening.bind parseOpening
              height_mm := r.height_mm
              width_mm := r.width_mm
              depth_mm := r.depth_mm
              thickness_mm := r.thickness_mm
              quantity := r.quantity.getD 1
              notes_text := r.notes_text
              notes_audio_url := r.notes_audio_url
              photo_url := r.photo_url }
    | none => .error ["element_type"]

/-- The document stored for a Building (Pydantic `.dict()` in schema
field order, after the store prepends `_id`). -/
def buildingFields (p : Building) : Doc :=
  [("project_id", .str p.project_id),
   ("name", .str p.name),
   ("description", optStr p.description)]

/-- The document stored for an Element (Pydantic `.dict()` in schema
field order, after the store prepends `_id`). -/
def elementFields (e : Element) : Doc :=
  [("project_id", .str e.project_id),
   ("building_id", optStr e.building_id),
   ("element_type", .str e.element_type.toName),
   ("configuration", optStr e.configuration),
   ("opening", match e.opening with | some o => .str o.toName | none => .null),
   ("height_mm", optNum e.height_mm),
   ("width_mm", optNum e.width_mm),
   ("depth_mm", optNum e.depth_mm),
   ("thickness_mm", optNum e.thickness_mm),
   ("quantity", .int e.quantity),
   ("notes_text", optStr e.notes_text),
   ("notes_audio_url", optStr e.notes_audio_url),
   ("photo_url", optStr e.photo_url)]

/-! ## Request handlers (`main.py`) -/

/-- `get_project` from `main.py`.  The identifier is validated by
`PyObjectId.validate`, which raises `ValueError("Invalid ObjectId")`
for a malformed string; that exception is caught by the generic
`except Exception` clause and re-raised as a 500 `HTTPException`
carrying the text of the error.  No store lookup happens in that case
because the argument of `find_one` is evaluated first. -/
def get_project (st : Store) (pid : String) : HandlerResult Doc :=
  if isValidObjectId pid then
    match findOne st.project pid with
    | none => ⟨.error .notFound, st, [.findProject pid]⟩
    | some d => ⟨.ok (serialize_doc d), st, [.findProject pid]⟩
  else ⟨.error (.serverError "Invalid ObjectId"), st, []⟩

/-- `create_building` from `main.py`: 400 on a malformed `project_id`,
404 when the parent project does not exist, otherwise insert and
re-read the new document.  The re-read may in principle return `None`,
in which case Python would answer `serialize_doc(None) = None`; the
success value is therefore an `Option Doc`. -/
def create_building (st : Store) (p : Building) : HandlerResult (Option Doc) :=
  if isValidObjectId p.project_id then
    match findOne st.project p.project_id with
    | none => ⟨.error (.parentNotFound "project"), st, [.findProject p.project_id]⟩
    | some _ =>
      let r := create_document st.building st.nextId (buildingFields p)
      let st2 : Store := { st with building := r.2, nextId := st.nextId + 1 }
      ⟨.ok ((findOne st2.building r.1).map serialize_doc), st2,
        [.findProject p.project_id, .insertBuilding (("_id", Value.oid r.1) :: buildingFields p),
         .findBuilding r.1]⟩
  else ⟨.error (.invalidId "project_id"), st, []⟩

/-- The insert-and-re-read tail of `create_element` (the body of its
`try` block), shared by every path that reaches the write. -/
def element_insert (st : Store) (p : Element) (acc : List StoreAccess) :
    HandlerResult (Option Doc) :=
  let r := create_document st.element st.nextId (elementFields p)
  let st2 : Store := { st with element := r.2, nextId := st.nextId + 1 }
  ⟨.ok ((findOne st2.element r.1).map serialize_doc), st2,
    acc ++ [.insertElement (("_id", Value.oid r.1) :: elementFields p), .findElement r.1]⟩

/-- `create_element` from `main.py`, on an already validated payload:
400 on a malformed `project_id`, 404 when the parent project is
absent; then, only when `payload.building_id` is truthy (present and
non-empty), 400 on a malformed `building_id` and 404 when the parent
building is absent; finally the insert. -/
def create_element (st : Store) (p : Element) : HandlerResult (Option Doc) :=
  if isValidObjectId p.project_id then
    match findOne st.project p.project_id with
    | none => ⟨.error (.parentNotFound "project"), st, [.findProject p.project_id]⟩
    | some _ =>
      match p.building_id with
      | some bid =>
        if bid ≠ "" then
          if isValidObjectId bid then
            match findOne st.building bid with
            | none => ⟨.error (.parentNotFound "building"), st,
                [.findProject p.project_id, .findBuilding bid]⟩
            | some _ => element_insert st p [.findProject p.project_id, .findBuilding bid]
          else ⟨.error (.invalidId "building_id"), st, [.findProject p.project_id]⟩
        else element_insert st p [.findProject p.project_id]
      | none => element_insert st p [.findProject p.project_id]
  else ⟨.error (.invalidId "project_id"), st, []⟩

/-- The full POST `/elements` pipeline: Pydantic validation of the raw
payload (no store access on failure), then the handler. -/
def post_element (st : Store) (r : ElementRaw) : HandlerResult (Option Doc) :=
  match validate_element r with
  | .error errs => ⟨.error (.validation errs), st, []⟩
  | .ok p => create_element st p

/-- `list_elements` from `main.py`: 400 on a malformed `project_id`;
the query filters on `project_id`, and additionally on `building_id`
when that parameter is truthy (present and non-empty), after a
well-formedness check on it; each document is serialized
independently. -/
def list_elements (st : Store) (pid : String) (bid : Option String) :
    HandlerResult (List Doc) :=
  if isValidObjectId pid then
    match bid with
    | some b =>
      if b ≠ "" then
        if isValidObjectId b then
          let q : Doc := [("project_id", .str pid), ("building_id", .str b)]
          ⟨.ok ((get_documents st.element q).map serialize_doc), st, [.queryElements q]⟩
        else ⟨.error (.invalidId "building_id"), st, []⟩
      else
        let q : Doc := [("project_id", .str pid)]
        ⟨.ok ((get_documents st.element q).map serialize_doc), st, [.queryElements q]⟩
    | none =>
      let q : Doc := [("project_id", .str pid)]
      ⟨.ok ((get_documents st.element q).map serialize_doc), st, [.queryElements q]⟩
  else ⟨.error (.invalidId "project_id"), st, []⟩

/-! ## Summary aggregation -/

/-- The `$group` key of an element document: the values of its
`element_type` and `configuration` fields (`none` when the field is
missing from the document). -/
def groupKey (d : Doc) : Option Value × Option Value :=
  (List.lookup "element_type" d, List.lookup "configuration" d)

/-- The contribution of a document to `$sum: "$quantity"`: its integer
`quantity`, or 0 when the field is missing or non-numeric (elements
written by this system always carry an integer quantity). -/
def qtyOf (d : Doc) : Int :=
  match List.lookup "quantity" d with
  | some (.int n) => n
  | _ => 0

/-- Add one document's quantity to the group list: increment the entry
holding its key, or append a new group. -/
def addGroup (gs : List ((Option Value × Option Value) × Int))
    (k : Option Value × Option Value) (q : Int) :
    List ((Option Value × Option Value) × Int) :=
  match gs with
  | [] => [(k, q)]
  | (k2, c) :: rest =>
    if k2 = k then (k2, c + q) :: rest else (k2, c) :: addGroup rest k q

/-- Folding step of the aggregation: absorb one document. -/
def aggStep (gs : List ((Option Value × Option Value) × Int)) (d : Doc) :
    List ((Option Value × Option Value) × Int) :=
  addGroup gs (groupKey d) (qtyOf d)

/-- Modelled from the spec: the store's grouped-aggregation query
(`$match` on `project_id`, then `$group` by `(element_type,
configuration)` with `$sum` of `quantity`): one group per distinct key
among the matched documents, in first-appearance order. -/
def aggregateElements (docs : List Doc) (pid : String) :
    List ((Option Value × Option Value) × Int) :=
  (get_documents docs [("project_id", .str pid)]).foldl aggStep []

/-- One entry of the summary response: `element_type`, `configuration`
and the summed `count`.  A missing group-key component reads back as
Python `None`, i.e. `null`, via `a["_id"].get(...)`. -/
structure SummaryItem where
  element_type : Value
  configuration : Value
  count : Int
deriving DecidableEq, Repr

/-- The summary response: total quantity plus one entry per group. -/
structure Summary where
  total : Int
  items : List SummaryItem
deriving DecidableEq, Repr

/-- The response entry built from one aggregation group. -/
def summaryItemOf (g : (Option Value × Option Value) × Int) : SummaryItem :=
  { element_type := g.1.1.getD .null
    configuration := g.1.2.getD .null
    count := g.2 }

/-- `project_summary` from `main.py`: 400 on a malformed `project_id`;
otherwise run the aggregation, shape the items, and total their
counts. -/
def project_summary (st : Store) (pid : String) : HandlerResult Summary :=
  if isValidObjectId pid then
    let items := (aggregateElements st.element pid).map summaryItemOf
    ⟨.ok { total := (items.map SummaryItem.count).sum, items := items }, st,
      [.aggregateElements pid]⟩
  else ⟨.error (.invalidId "project_id"), st, []⟩

/-! ## CSV export -/

/-- Python `str`/csv rendering of a store value in a CSV cell: `None`
becomes an empty cell, numbers their decimal text (the exact Python
float formatting is abstracted to the rational's text), strings and
ObjectIds their text. -/
def renderCell : Value → String
  | .oid s => s
  | .str s => s
  | .int n => toString n
  | .num q => toString q
  | .null => ""

/-- `e.get(k, "")` rendered in a CSV cell. -/
def getCell (d : Doc) (k : String) : String :=
  match List.lookup k d with
  | some v => renderCell v
  | none => ""

/-- The fixed header row written by `export_csv`. -/
def csvHeader : List String :=
  ["ID", "Type", "Configuration", "Ouverture", "Hauteur(mm)", "Largeur(mm)",
   "Profondeur(mm)", "Épaisseur(mm)", "Quantité", "Notes"]

/-- The CSV row written for one element document: `str(e.get("_id"))`,
the optional fields with empty-cell defaults, `quantity` defaulting to
1, and newlines in notes replaced by spaces. -/
def csvRow (d : Doc) : List String :=
  [(match List.lookup "_id" d with
    | some v => renderCell v
    | none => "None"),
   getCell d "element_type",
   getCell d "configuration",
   getCell d "opening",
   getCell d "height_mm",
   getCell d "width_mm",
   getCell d "depth_mm",
   getCell d "thickness_mm",
   (match List.lookup "quantity" d with
    | some v => renderCell v
    | none => "1"),
   (getCell d "notes_text").replace "\n" " "]

/-- The CSV response: its rows, declared media type, and the filename
suggested in the `Content-Disposition` header. -/
structure CsvResponse where
  rows : List (List String)
  media_type : String
  filename : String
deriving DecidableEq, Repr

/-- The rows `export_csv` writes into its `StringIO` buffer: the
header row followed by one row per element of the project.  The
handler computes this content but then discards it, because building
the response object fails (see `export_csv`). -/
def exportRows (st : Store) (pid : String) : List (List String) :=
  csvHeader :: (get_documents st.element [("project_id", .str pid)]).map csvRow

/-- The `str(e)` of the `AttributeError` raised by
`app.response_class` on a FastAPI application object (CPython renders
it as `\x27FastAPI\x27 object has no attribute \x27response_class\x27`);
the constant abstracts that interpreter-produced text. -/
def responseClassError : String :=
  "\x27FastAPI\x27 object has no attribute \x27response_class\x27"

/-- `export_csv` from `main.py`: 400 on a malformed `project_id`;
otherwise the handler fetches the project's elements and writes the
header and element rows into its buffer, but then evaluates
`app.response_class(...)` (`main.py:256`) — a Flask idiom that does
not exist on a FastAPI application — so every reachable export raises
`AttributeError` inside the `try` block, which the
`except Exception` clause re-raises as a 500 `HTTPException` carrying
the error text.  No CSV response, media type or filename is ever
returned; the computed rows are `exportRows`. -/
def export_csv (st : Store) (pid : String) : HandlerResult CsvResponse :=
  if isValidObjectId pid then
    ⟨.error (.serverError responseClassError), st,
      [.queryElements [("project_id", .str pid)]]⟩
  else ⟨.error (.invalidId "project_id"), st, []⟩

/-- The count recorded for a key in a group list (0 when absent); reads
the first entry with the key, as `addGroup` updates the first. -/
def groupCount (gs : List ((Option Value × Option Value) × Int))
    (k : Option Value × Option Value) : Int :=
  match gs with
  | [] => 0
  | (k2, c) :: rest => if k2 = k then c else groupCount rest k

/-! ## Concrete fixtures used by witnesses and counterexamples -/

/-- A well-formed project identifier. -/
def exPid : String := "aaaaaaaaaaaaaaaaaaaaaaaa"

/-- A second well-formed identifier, used for buildings. -/
def exBid : String := "bbbbbbbbbbbbbbbbbbbbbbbb"

/-- A third well-formed identifier, for a second building. -/
def exBid2 : String := "cccccccccccccccccccccccc"

/-- A stored project document with identifier `exPid`. -/
def exProjectDoc : Doc :=
  [("_id", .oid exPid), ("name", .str "P"), ("project_type", .str "Autre")]

/-- A stored building document with identifier `exBid`. -/
def exBuildingDoc : Doc :=
  [("_id", .oid exBid), ("project_id", .str exPid), ("name", .str "B"),
   ("description", .null)]

/-- A small stored element document. -/
def exElemDoc (id : String) (et : String) (cfg : Value) (q : Int) (bid : Value) : Doc :=
  [("_id", .oid id), ("project_id", .str exPid), ("building_id", bid),
   ("element_type", .str et), ("configuration", cfg), ("quantity", .int q)]

/-- A store holding only the example project. -/
def projStore : Store :=
  { project := [exProjectDoc], building := [], element := [], nextId := 0 }

/-- The store of the specification's summary example: one project with
elements (porte, simple, qty 2), (porte, simple, qty 3),
(placard, null, qty 1). -/
def summaryStore : Store :=
  { project := [exProjectDoc]
    building := []
    element :=
      [exElemDoc "000000000000000000000001" "porte" (.str "simple") 2 .null,
       exElemDoc "000000000000000000000002" "porte" (.str "simple") 3 .null,
       exElemDoc "000000000000000000000003" "placard" .null 1 .null]
    nextId := 0 }

/-- A store with two buildings and elements spread across them,
exercising the `building_id` filter. -/
def filterStore : Store :=
  { project := [exProjectDoc]
    building := [exBuildingDoc]
    element :=
      [exElemDoc "000000000000000000000001" "porte" (.str "simple") 2 (.str exBid),
       exElemDoc "000000000000000000000002" "porte" (.str "simple") 3 (.str exBid2),
       exElemDoc "000000000000000000000003" "placard" .null 1 .null]
    nextId := 7 }

/-- A raw Element payload that validates cleanly, with `quantity`
omitted. -/
def baseRaw : ElementRaw :=
  { project_id := exPid
    building_id := none
    element_type := "porte"
    configuration := some "simple"
    opening := none
    height_mm := none
    width_mm := none
    depth_mm := none
    thickness_mm := none
    quantity := none
    notes_text := none
    notes_audio_url := none
    photo_url := none }

/-- A validated Element payload referencing the example project. -/
def baseElem : Element :=
  { project_id := exPid
    building_id := none
    element_type := .porte
    configuration := some "simple"
    opening := none
    height_mm := none
    width_mm := none
    depth_mm := none
    thickness_mm := none
    quantity := 1
    notes_text := none
    notes_audio_url := none
    photo_url := none }

/-- A store with no documents at all. -/
def emptyStore : Store :=
  { project := [], building := [], element := [], nextId := 0 }

/-- A validated Element payload whose `project_id` is malformed. -/
def badPidElem : Element := { baseElem with project_id := "xyz" }

/-- A validated Element payload with a malformed (non-empty)
`building_id` and a well-formed `project_id`. -/
def badBidElem : Element := { baseElem with building_id := some "zzz" }

/-- A validated Element payload whose `building_id` is the empty
string. -/
def emptyBidElem : Element := { baseElem with building_id := some "" }

/-- A raw Element payload with a negative `height_mm`. -/
def negRaw : ElementRaw := { baseRaw with height_mm := some (-5 : Rat) }

/-- A small document mixing an ObjectId value with plain values. -/
def exMixedDoc : Doc :=
  [("_id", .oid exPid), ("name", .str "P"), ("quantity", .int 2)]

/-! ## Helper lemmas -/

theorem lookup_map_serializeValue (doc : Doc) (k : String) :
    List.lookup k (doc.map fun kv => (kv.1, serializeValue kv.2)) =
      (List.lookup k doc).map serializeValue := by
  induction doc with
  | nil => rfl
  | cons kv rest ih =>
    obtain ⟨k1, v⟩ := kv
    simp only [List.map_cons]
    cases h : k == k1 <;> simp [List.lookup, h, ih]

theorem serialize_doc_eq_map (doc : Doc) :
    serialize_doc doc = doc.map fun kv => (kv.1, serializeValue kv.2) := by
  cases doc <;> rfl

theorem mem_get_documents (docs : List Doc) (q : Doc) (d : Doc) :
    d ∈ get_documents docs q ↔
      d ∈ docs ∧ ∀ kv ∈ q, List.lookup kv.1 d = some kv.2 := by
  simp [get_documents, List.mem_filter, List.all_eq_true]

theorem addGroup_count (gs : List ((Option Value × Option Value) × Int))
    (k k2 : Option Value × Option Value) (q : Int) :
    groupCount (addGroup gs k q) k2 =
      groupCount gs k2 + (if k2 = k then q else 0) := by
  induction gs with
  | nil =>
    simp only [addGroup, groupCount]
    by_cases h : k = k2
    · subst h; simp
    · rw [if_neg h, if_neg fun hh => h hh.symm]; simp
  | cons g rest ih =>
    obtain ⟨k0, c⟩ := g
    simp only [addGroup]
    by_cases h0 : k0 = k
    · rw [if_pos h0]
      simp only [groupCount]
      by_cases h2 : k0 = k2
      · have hk : k2 = k := by rw [← h2]; exact h0
        rw [if_pos h2, if_pos h2, if_pos hk]
      · have hk : ¬ k2 = k := fun hh => h2 (h0.trans hh.symm)
        rw [if_neg h2, if_neg h2, if_neg hk]
        simp
    · rw [if_neg h0]
      simp only [groupCount]
      by_cases h2 : k0 = k2
      · have hk : ¬ k2 = k := fun hh => h0 (h2.trans hh)
        rw [if_pos h2, if_pos h2, if_neg hk]
        simp
      · rw [if_neg h2, if_neg h2]
        exact ih

theorem addGroup_sumCounts (gs : List ((Option Value × Option Value) × Int))
    (k : Option Value × Option Value) (q : Int) :
    ((addGroup gs k q).map Prod.snd).sum = (gs.map Prod.snd).sum + q := by
  induction gs with
  | nil => simp [addGroup]
  | cons g rest ih =>
    obtain ⟨k0, c⟩ := g
    by_cases h : k0 = k <;> simp [addGroup, h, ih] <;> ring

theorem addGroup_keys (gs : List ((Option Value × Option Value) × Int))
    (k k2 : Option Value × Option Value) (q : Int) :
    k2 ∈ (addGroup gs k q).map Prod.fst ↔ k2 ∈ gs.map Prod.fst ∨ k2 = k := by
  induction gs with
  | nil => simp [addGroup]
  | cons g rest ih =>
    obtain ⟨k0, c⟩ := g
    simp only [addGroup]
    by_cases h : k0 = k
    · rw [if_pos h]
      subst h
      simp only [List.map_cons, List.mem_cons]
      tauto
    · rw [if_neg h]
      simp only [List.map_cons, List.mem_cons, ih]
      tauto

theorem addGroup_nodup (gs : List ((Option Value × Option Value) × Int))
    (k : Option Value × Option Value) (q : Int)
    (h : (gs.map Prod.fst).Nodup) :
    ((addGroup gs k q).map Prod.fst).Nodup := by
  induction gs with
  | nil => simp [addGroup]
  | cons g rest ih =>
    obtain ⟨k0, c⟩ := g
    simp only [List.map_cons, List.nodup_cons] at h
    by_cases hk : k0 = k
    · subst hk
      simpa [addGroup, List.nodup_cons] using h
    · simp only [addGroup, if_neg hk, List.map_cons, List.nodup_cons]
      refine ⟨?_, ih h.2⟩
      rw [addGroup_keys]
      rintro (hin | hin)
      · exact h.1 hin
      · exact hk hin

theorem foldl_aggStep_count (docs : List Doc)
    (gs : List ((Option Value × Option Value) × Int))
    (k : Option Value × Option Value) :
    groupCount (docs.foldl aggStep gs) k =
      groupCount gs k +
        ((docs.filter fun d => decide (groupKey d = k)).map qtyOf).sum := by
  induction docs generalizing gs with
  | nil => simp
  | cons d rest ih =>
    rw [List.foldl_cons, ih, aggStep, addGroup_count]
    simp only [List.filter_cons]
    by_cases h : groupKey d = k
    · rw [if_pos h.symm, if_pos (by simpa using h)]
      simp only [List.map_cons, List.sum_cons]
      ring
    · rw [if_neg fun hh => h hh.symm, if_neg (by simpa using h)]
      simp

theorem foldl_aggStep_sum (docs : List Doc)
    (gs : List ((Option Value × Option Value) × Int)) :
    ((docs.foldl aggStep gs).map Prod.snd).sum =
      (gs.map Prod.snd).sum + (docs.map qtyOf).sum := by
  induction docs generalizing gs with
  | nil => simp
  | cons d rest ih =>
    rw [List.foldl_cons, ih, aggStep, addGroup_sumCounts]
    simp
    ring

theorem foldl_aggStep_keys (docs : List Doc)
    (gs : List ((Option Value × Option Value) × Int))
    (k : Option Value × Option Value) :
    k ∈ (docs.foldl aggStep gs).map Prod.fst ↔
      k ∈ gs.map Prod.fst ∨ ∃ d ∈ docs, groupKey d = k := by
  induction docs generalizing gs with
  | nil => simp
  | cons d rest ih =>
    rw [List.foldl_cons, ih, aggStep, addGroup_keys]
    constructor
    · rintro ((hh | hh) | ⟨d2, hd2, hk⟩)
      · exact Or.inl hh
      · exact Or.inr ⟨d, List.mem_cons_self _ _, hh.symm⟩
      · exact Or.inr ⟨d2, List.mem_cons_of_mem _ hd2, hk⟩
    · rintro (hh | ⟨d2, hd2, hk⟩)
      · exact Or.inl (Or.inl hh)
      · rcases List.mem_cons.mp hd2 with h2 | h2
        · exact Or.inl (Or.inr (h2 ▸ hk).symm)
        · exact Or.inr ⟨d2, h2, hk⟩

theorem foldl_aggStep_nodup (docs : List Doc)
    (gs : List ((Option Value × Option Value) × Int))
    (h : (gs.map Prod.fst).Nodup) :
    (((docs.foldl aggStep gs)).map Prod.fst).Nodup := by
  induction docs generalizing gs with
  | nil => simpa
  | cons d rest ih =>
    rw [List.foldl_cons]
    exact ih _ (addGroup_nodup _ _ _ h)

/-! ## Claims -/

/-- C1: for every Building-creation request whose `project_id` is a
well-formed identifier that does not identify an existing Project, the
create-building operation returns `ParentNotFound` (404-equivalent)
and performs no insert into the building collection: the store is
returned unchanged, the only access is the project point lookup. -/
theorem C1_create_building_parent_not_found (st : Store) (p : Building)
    (hv : isValidObjectId p.project_id = true)
    (hm : findOne st.project p.project_id = none) :
    create_building st p =
      ⟨.error (.parentNotFound "project"), st, [.findProject p.project_id]⟩ ∧
    statusCode (.parentNotFound "project") = 404 := by
  refine ⟨?_, rfl⟩
  simp [create_building, hv, hm]

/-- Witness for C1: on a store with no projects, creating a building
under the well-formed but unknown identifier `exPid` yields
`ParentNotFound` and leaves the store untouched. -/
theorem C1_create_building_parent_not_found_witness :
    isValidObjectId exPid = true ∧
    findOne emptyStore.project exPid = none ∧
    create_building emptyStore { project_id := exPid, name := "B", description := none } =
      ⟨.error (.parentNotFound "project"), emptyStore, [.findProject exPid]⟩ :=
  ⟨by decide, by decide,
   (C1_create_building_parent_not_found emptyStore
     { project_id := exPid, name := "B", description := none } (by decide) (by decide)).1⟩

/-- C2: for every project identifier and store, the summary groups the
project's element documents by the `(element_type, configuration)`
pair, sums `quantity` per group (one entry per distinct key, keys
without duplicates), and its `total` is both the sum of the group
counts and the sum of the quantities of all matched elements. -/
theorem C2_project_summary_groups (st : Store) (pid : String)
    (hv : isValidObjectId pid = true) :
    ∃ s : Summary,
      (project_summary st pid).result = .ok s ∧
      (project_summary st pid).store = st ∧
      s.items = (aggregateElements st.element pid).map summaryItemOf ∧
      s.total = (s.items.map SummaryItem.count).sum ∧
      s.total = ((get_documents st.element [("project_id", .str pid)]).map qtyOf).sum ∧
      ((aggregateElements st.element pid).map Prod.fst).Nodup ∧
      (∀ k, k ∈ (aggregateElements st.element pid).map Prod.fst ↔
        ∃ d ∈ get_documents st.element [("project_id", .str pid)], groupKey d = k) ∧
      (∀ k, groupCount (aggregateElements st.element pid) k =
        (((get_documents st.element [("project_id", .str pid)]).filter
            fun d => decide (groupKey d = k)).map qtyOf).sum) := by
  have hred : project_summary st pid =
      ⟨.ok { total := (((aggregateElements st.element pid).map summaryItemOf).map
                SummaryItem.count).sum
             items := (aggregateElements st.element pid).map summaryItemOf }, st,
        [.aggregateElements pid]⟩ := by
    simp [project_summary, hv]
  refine ⟨_, by rw [hred], by rw [hred], rfl, rfl, ?_, ?_, ?_, ?_⟩
  · show (((aggregateElements st.element pid).map summaryItemOf).map SummaryItem.count).sum
      = ((get_documents st.element [("project_id", .str pid)]).map qtyOf).sum
    rw [List.map_map]
    have hc : (SummaryItem.count ∘ summaryItemOf) = Prod.snd := by
      funext g; rfl
    rw [hc]
    simpa using foldl_aggStep_sum (get_documents st.element [("project_id", .str pid)]) []
  · exact foldl_aggStep_nodup _ [] (by simp)
  · intro k
    simpa using foldl_aggStep_keys (get_documents st.element [("project_id", .str pid)]) [] k
  · intro k
    simpa [groupCount] using
      foldl_aggStep_count (get_documents st.element [("project_id", .str pid)]) [] k

/-- Witness for C2, at the specification's own example: a project with
elements (porte, simple, qty 2), (porte, simple, qty 3),
(placard, null, qty 1) summarises to total 6 with exactly the groups
(porte, simple, 5) and (placard, null, 1). -/
theorem C2_project_summary_groups_witness :
    isValidObjectId exPid = true ∧
    (∃ s : Summary,
      (project_summary summaryStore exPid).result = .ok s ∧
      (project_summary summaryStore exPid).store = summaryStore ∧
      s.items = (aggregateElements summaryStore.element exPid).map summaryItemOf ∧
      s.total = (s.items.map SummaryItem.count).sum ∧
      s.total = ((get_documents summaryStore.element [("project_id", .str exPid)]).map qtyOf).sum ∧
      ((aggregateElements summaryStore.element exPid).map Prod.fst).Nodup ∧
      (∀ k, k ∈ (aggregateElements summaryStore.element exPid).map Prod.fst ↔
        ∃ d ∈ get_documents summaryStore.element [("project_id", .str exPid)], groupKey d = k) ∧
      (∀ k, groupCount (aggregateElements summaryStore.element exPid) k =
        (((get_documents summaryStore.element [("project_id", .str exPid)]).filter
            fun d => decide (groupKey d = k)).map qtyOf).sum)) ∧
    (project_summary summaryStore exPid).result =
      .ok { total := 6
            items := [{ element_type := .str "porte", configuration := .str "simple", count := 5 },
                      { element_type := .str "placard", configuration := .null, count := 1 }] } :=
  ⟨by decide, C2_project_summary_groups summaryStore exPid (by decide), by decide⟩

/-- C3: for every Element-creation request whose `project_id` is
malformed, the handler returns `InvalidIdentifier` (400, distinct from
the not-found errors) and makes no store access at all: no lookup, no
insert, the store unchanged. -/
theorem C3_create_element_invalid_project_id (st : Store) (p : Element)
    (hv : isValidObjectId p.project_id = false) :
    create_element st p = ⟨.error (.invalidId "project_id"), st, []⟩ ∧
    statusCode (.invalidId "project_id") = 400 ∧
    (ApiError.invalidId "project_id" ≠ .parentNotFound "project") ∧
    (ApiError.invalidId "project_id" ≠ .notFound) := by
  refine ⟨?_, rfl, by decide, by decide⟩
  simp [create_element, hv]

/-- Witness for C3: creating an element whose `project_id` is the
malformed string `xyz` is rejected with 400 and an empty access
trace. -/
theorem C3_create_element_invalid_project_id_witness :
    isValidObjectId badPidElem.project_id = false ∧
    create_element projStore badPidElem =
      ⟨.error (.invalidId "project_id"), projStore, []⟩ :=
  ⟨by decide,
   (C3_create_element_invalid_project_id projStore badPidElem (by decide)).1⟩

/-- C4 (code bug): for every get-Project request with a malformed
identifier, no store lookup happens, but the `ValueError` raised by
`PyObjectId.validate` is caught by the blanket `except Exception`
clause and surfaces as a 500-equivalent `InternalStoreError`, not as
the 4xx `InvalidIdentifier` the specification requires. -/
theorem C4_get_project_malformed_is_500 (st : Store) (pid : String)
    (hv : isValidObjectId pid = false) :
    get_project st pid = ⟨.error (.serverError "Invalid ObjectId"), st, []⟩ ∧
    statusCode (.serverError "Invalid ObjectId") = 500 := by
  refine ⟨?_, rfl⟩
  simp [get_project, hv]

/-- Witness for C4: requesting the project with identifier `xyz`
answers the 500-equivalent error. -/
theorem C4_get_project_malformed_is_500_witness :
    isValidObjectId "xyz" = false ∧
    get_project projStore "xyz" =
      ⟨.error (.serverError "Invalid ObjectId"), projStore, []⟩ ∧
    statusCode (.serverError "Invalid ObjectId") = 500 :=
  ⟨by decide,
   (C4_get_project_malformed_is_500 projStore "xyz" (by decide)).1,
   (C4_get_project_malformed_is_500 projStore "xyz" (by decide)).2⟩

/-- C5 counterexample: on a store holding the project `exPid`, an
Element-creation request with that `project_id` and the malformed
`building_id` string `zzz` is rejected for well-formedness only after
the project existence lookup has run: the access trace of the request
is the non-empty `[findProject exPid]`, contradicting the claim that a
malformed `building_id` is rejected before any existence lookup. -/
theorem C5_counterexample :
    (create_element projStore badBidElem).result = .error (.invalidId "building_id") ∧
    (create_element projStore badBidElem).accesses = [.findProject exPid] ∧
    (create_element projStore badBidElem).accesses ≠ [] := by
  refine ⟨by decide, by decide, by decide⟩

/-- C5 (amended): when the supplied `project_id` is well-formed and
names an existing project, the remaining checks on a supplied
non-empty `building_id` run in the order well-formedness, then
building existence, then the write — a malformed `building_id` is
rejected after the single project existence lookup but before any
building lookup and before any write. -/
theorem C5_amended_check_order (st : Store) (p : Element) (bid : String) (pd : Doc)
    (hb : p.building_id = some bid) (hne : bid ≠ "")
    (hv : isValidObjectId p.project_id = true)
    (hpd : findOne st.project p.project_id = some pd) :
    (isValidObjectId bid = false →
      create_element st p =
        ⟨.error (.invalidId "building_id"), st, [.findProject p.project_id]⟩) ∧
    (isValidObjectId bid = true → findOne st.building bid = none →
      create_element st p =
        ⟨.error (.parentNotFound "building"), st,
          [.findProject p.project_id, .findBuilding bid]⟩) ∧
    (∀ bd, isValidObjectId bid = true → findOne st.building bid = some bd →
      create_element st p =
        element_insert st p [.findProject p.project_id, .findBuilding bid]) := by
  refine ⟨?_, ?_, ?_⟩
  · intro hbv
    simp [create_element, hv, hpd, hb, hne, hbv]
  · intro hbv hbm
    simp [create_element, hv, hpd, hb, hne, hbv, hbm]
  · intro bd hbv hbd
    simp [create_element, hv, hpd, hb, hne, hbv, hbd]

/-- Witness for the amended C5: with the project present, the request
with malformed `building_id` `zzz` is rejected as `InvalidIdentifier`
with exactly the project lookup in its trace. -/
theorem C5_amended_check_order_witness :
    badBidElem.building_id = some "zzz" ∧
    isValidObjectId badBidElem.project_id = true ∧
    findOne projStore.project badBidElem.project_id = some exProjectDoc ∧
    isValidObjectId "zzz" = false ∧
    create_element projStore badBidElem =
      ⟨.error (.invalidId "building_id"), projStore, [.findProject badBidElem.project_id]⟩ :=
  ⟨rfl, by decide, by decide, by decide,
   (C5_amended_check_order projStore badBidElem "zzz" exProjectDoc rfl (by decide)
     (by decide) (by decide)).1 (by decide)⟩

/-- C6: for every store, project identifier and non-empty well-formed
`building_id` filter, listing elements answers exactly the serialized
store documents whose `project_id` equals the requested project and
whose `building_id` equals the filter: nothing of another building is
included and no matching element is omitted. -/
theorem C6_list_elements_building_filter (st : Store) (pid b : String)
    (hv : isValidObjectId pid = true) (hb : isValidObjectId b = true)
    (hne : b ≠ "") :
    list_elements st pid (some b) =
      ⟨.ok ((get_documents st.element
              [("project_id", .str pid), ("building_id", .str b)]).map serialize_doc),
        st, [.queryElements [("project_id", .str pid), ("building_id", .str b)]]⟩ ∧
    ∀ d, d ∈ get_documents st.element
            [("project_id", .str pid), ("building_id", .str b)] ↔
          d ∈ st.element ∧ List.lookup "project_id" d = some (.str pid) ∧
            List.lookup "building_id" d = some (.str b) := by
  refine ⟨by simp [list_elements, hv, hb, hne], ?_⟩
  intro d
  rw [mem_get_documents]
  simp

/-- Witness for C6: across a population of elements in two buildings
and one without a building, filtering on `exBid` returns exactly the
single element of that building. -/
theorem C6_list_elements_building_filter_witness :
    isValidObjectId exPid = true ∧
    isValidObjectId exBid = true ∧
    exBid ≠ "" ∧
    (∀ d, d ∈ get_documents filterStore.element
            [("project_id", .str exPid), ("building_id", .str exBid)] ↔
          d ∈ filterStore.element ∧ List.lookup "project_id" d = some (.str exPid) ∧
            List.lookup "building_id" d = some (.str exBid)) ∧
    (list_elements filterStore exPid (some exBid)).result =
      .ok [serialize_doc
        (exElemDoc "000000000000000000000001" "porte" (.str "simple") 2 (.str exBid))] :=
  ⟨by decide, by decide, by decide,
   (C6_list_elements_building_filter filterStore exPid exBid
     (by decide) (by decide) (by decide)).2,
   by decide⟩

/-- C7 (code bug): for every project with zero elements (and in fact
for every well-formed `project_id`), CSV export never produces the
claimed one-row CSV file: after querying the elements and writing the
header into its buffer — for zero elements the buffer holds exactly
the 10-column header row — the handler evaluates
`app.response_class(...)`, a Flask idiom absent on a FastAPI
application, so the request raises `AttributeError` and surfaces as a
500-equivalent `InternalStoreError`; no CSV content type or filename
is ever returned. -/
theorem C7_export_csv_response_class_bug (st : Store) (pid : String)
    (hv : isValidObjectId pid = true)
    (hz : get_documents st.element [("project_id", .str pid)] = []) :
    export_csv st pid =
      ⟨.error (.serverError responseClassError), st,
        [.queryElements [("project_id", .str pid)]]⟩ ∧
    statusCode (.serverError responseClassError) = 500 ∧
    exportRows st pid = [csvHeader] ∧
    csvHeader.length = 10 := by
  refine ⟨?_, rfl, ?_, rfl⟩
  · simp [export_csv, hv]
  · rw [exportRows, hz]
    rfl

/-- Witness for C7: exporting the element-free project `exPid` answers
the 500-equivalent error, while the discarded buffer held only the
header row. -/
theorem C7_export_csv_response_class_bug_witness :
    isValidObjectId exPid = true ∧
    get_documents projStore.element [("project_id", .str exPid)] = [] ∧
    export_csv projStore exPid =
      ⟨.error (.serverError responseClassError), projStore,
        [.queryElements [("project_id", .str exPid)]]⟩ ∧
    exportRows projStore exPid = [csvHeader] :=
  ⟨by decide, rfl,
   (C7_export_csv_response_class_bug projStore exPid (by decide) rfl).1,
   (C7_export_csv_response_class_bug projStore exPid (by decide) rfl).2.2.1⟩

/-- C8: for every Element-creation payload, an omitted `quantity`
defaults to 1 in the validated record, and any negative `height_mm`,
`width_mm`, `depth_mm` or `thickness_mm`, or a supplied `quantity`
below 1, fails validation with a `ValidationError` before the handler
runs: the store is untouched and no store access is made. -/
theorem C8_element_validation (st : Store) (r : ElementRaw) :
    (∀ e, r.quantity = none → validate_element r = .ok e → e.quantity = 1) ∧
    ((negQ r.height_mm || negQ r.width_mm || negQ r.depth_mm ||
        negQ r.thickness_mm) = true ∨ (∃ q, r.quantity = some q ∧ q < 1) →
      ∃ errs, errs ≠ [] ∧
        post_element st r = ⟨.error (.validation errs), st, []⟩) := by
  constructor
  · intro e hq hok
    unfold validate_element at hok
    by_cases he : elementErrors r ≠ []
    · rw [if_pos he] at hok
      cases hok
    · rw [if_neg he] at hok
      cases hpt : parseElementType r.element_type with
      | none => rw [hpt] at hok; cases hok
      | some et =>
        rw [hpt] at hok
        have h2 := Except.ok.inj hok
        rw [← h2, hq]
        rfl
  · intro hbad
    have hne : elementErrors r ≠ [] := by
      intro h0
      unfold elementErrors at h0
      simp only [List.append_eq_nil] at h0
      obtain ⟨⟨⟨⟨⟨⟨hA, hB⟩, hC⟩, hD⟩, hE⟩, hF⟩, hG⟩ := h0
      rcases hbad with hb | ⟨q, hq, hlt⟩
      · have hdisj : negQ r.height_mm = true ∨ negQ r.width_mm = true ∨
            negQ r.depth_mm = true ∨ negQ r.thickness_mm = true := by
          simpa [or_assoc] using hb
        rcases hdisj with h1 | h2 | h3 | h4
        · rw [if_pos h1] at hC; exact List.cons_ne_nil _ _ hC
        · rw [if_pos h2] at hD; exact List.cons_ne_nil _ _ hD
        · rw [if_pos h3] at hE; exact List.cons_ne_nil _ _ hE
        · rw [if_pos h4] at hF; exact List.cons_ne_nil _ _ hF
      · rw [hq] at hG
        simp [hlt] at hG
    refine ⟨elementErrors r, hne, ?_⟩
    unfold post_element validate_element
    rw [if_pos hne]

/-- Witness for C8: the clean payload `baseRaw` (quantity omitted)
validates to a record with quantity 1, and the payload with
`height_mm = -5` is rejected by validation with no store access. -/
theorem C8_element_validation_witness :
    baseRaw.quantity = none ∧
    validate_element baseRaw = .ok baseElem ∧
    baseElem.quantity = 1 ∧
    (∃ errs, errs ≠ [] ∧
      post_element emptyStore negRaw =
        ⟨.error (.validation errs), emptyStore, []⟩) :=
  ⟨rfl, by decide,
   (C8_element_validation emptyStore baseRaw).1 baseElem rfl (by decide),
   (C8_element_validation emptyStore negRaw).2 (Or.inl (by decide))⟩

/-- C9: an empty-string `building_id` is treated as absent: element
listing with `building_id=""` applies no building filter and no
well-formedness check on the empty string (it behaves exactly as no
filter), and element creation with `building_id=""` skips both
building checks, so only the project check gates the write. -/
theorem C9_empty_building_id_absent (st : Store) (pid : String) (p : Element) :
    list_elements st pid (some "") = list_elements st pid none ∧
    (p.building_id = some "" → isValidObjectId p.project_id = true →
      ∀ pd, findOne st.project p.project_id = some pd →
        create_element st p = element_insert st p [.findProject p.project_id]) := by
  constructor
  · by_cases hv : isValidObjectId pid <;> simp [list_elements, hv]
  · intro hb hv pd hpd
    simp [create_element, hv, hpd, hb]

/-- Witness for C9: on the one-project store, listing with an empty
filter equals unfiltered listing, and creating an element with
`building_id=""` proceeds straight to the write after the project
lookup. -/
theorem C9_empty_building_id_absent_witness :
    list_elements projStore exPid (some "") = list_elements projStore exPid none ∧
    emptyBidElem.building_id = some "" ∧
    isValidObjectId emptyBidElem.project_id = true ∧
    findOne projStore.project emptyBidElem.project_id = some exProjectDoc ∧
    create_element projStore emptyBidElem =
      element_insert projStore emptyBidElem [.findProject emptyBidElem.project_id] :=
  ⟨(C9_empty_building_id_absent projStore exPid emptyBidElem).1, rfl, by decide, by decide,
   (C9_empty_building_id_absent projStore exPid emptyBidElem).2 rfl (by decide)
     exProjectDoc (by decide)⟩

/-- C10: `serialize_doc` is a pure function that maps every entry
pointwise — it preserves the key sequence, keeps every non-ObjectId
value, turns every ObjectId value (including `_id`) into its string —
and leaves the empty document unchanged (a missing document short-cuts
through `Option.map`); the successful response documents of the get
and list operations, and of the create insert-and-re-read tail, are
exactly its images. -/
theorem C10_serialize_doc_spec (doc : Doc) (st : Store) (pid : String) :
    serialize_doc doc = doc.map (fun kv => (kv.1, serializeValue kv.2)) ∧
    (serialize_doc doc).map Prod.fst = doc.map Prod.fst ∧
    (∀ k, List.lookup k (serialize_doc doc) =
      (List.lookup k doc).map serializeValue) ∧
    (∀ s, serializeValue (.oid s) = .str s) ∧
    (∀ v, (∀ s, v ≠ .oid s) → serializeValue v = v) ∧
    serialize_doc [] = [] ∧
    (Option.map serialize_doc none = (none : Option Doc)) ∧
    (∀ d, isValidObjectId pid = true → findOne st.project pid = some d →
      (get_project st pid).result = .ok (serialize_doc d)) ∧
    (isValidObjectId pid = true →
      (list_elements st pid none).result =
        .ok ((get_documents st.element [("project_id", .str pid)]).map serialize_doc)) ∧
    (∀ p acc, (element_insert st p acc).result =
      .ok ((findOne
        (st.element ++ [("_id", Value.oid (natToHex24 st.nextId)) :: elementFields p])
        (natToHex24 st.nextId)).map serialize_doc)) := by
  refine ⟨serialize_doc_eq_map doc, ?_, ?_, fun s => rfl, ?_, rfl, rfl, ?_, ?_, ?_⟩
  · rw [serialize_doc_eq_map, List.map_map]
    rfl
  · intro k
    rw [serialize_doc_eq_map]
    exact lookup_map_serializeValue doc k
  · intro v h
    cases v with
    | oid s => exact absurd rfl (h s)
    | str s => rfl
    | int n => rfl
    | num q => rfl
    | null => rfl
  · intro d hv hd
    simp [get_project, hv, hd]
  · intro hv
    simp [list_elements, hv]
  · intro p acc
    rfl

/-- Witness for C10: on a document holding its `_id` ObjectId next to
plain values, serialization stringifies exactly the ObjectId, and the
get-project response for `exPid` is the serialized stored document. -/
theorem C10_serialize_doc_spec_witness :
    serialize_doc exMixedDoc =
      [("_id", .str exPid), ("name", .str "P"), ("quantity", .int 2)] ∧
    (serialize_doc exMixedDoc).map Prod.fst = exMixedDoc.map Prod.fst ∧
    isValidObjectId exPid = true ∧
    findOne projStore.project exPid = some exProjectDoc ∧
    (get_project projStore exPid).result = .ok (serialize_doc exProjectDoc) :=
  ⟨by decide,
   (C10_serialize_doc_spec exMixedDoc projStore exPid).2.1,
   by decide, by decide,
   (C10_serialize_doc_spec exMixedDoc projStore exPid).2.2.2.2.2.2.2.1
     exProjectDoc (by decide) (by decide)⟩

end MeasurementApi
